import Mathlib

/-!
Shallow embedding of the update-checking module (`source/updateCheck.py`) of the
repository: the response parser, the query-parameter builder, the automatic-check
scheduler, the persisted pending-update state, the installer handoff and the
multi-mirror downloader, each translated from the Python source.  Machine
strings are Lean `String`s, byte streams are `List Nat`, wall-clock times are
`Int` seconds, and the SHA-1 digest is an abstract function parameter
`hex : List Nat → String`.
-/

/-! ## Data model: `UpdateInfo` (source/updateCheck.py, lines 129-152) -/

/-- Mirrors the dataclass `UpdateInfo`: required fields `version`,
`launcherUrl`, `apiVersion`; the remaining fields are optional and default to
`None` (here `none`). -/
structure UpdateInfo where
  version : String
  launcherUrl : String
  apiVersion : String
  launcherHash : Option String := none
  apiCompatTo : Option String := none
  changesUrl : Option String := none
  launcherInteractiveUrl : Option String := none
  deriving Repr, DecidableEq

/-- Keys accepted by `UpdateInfo.parseUpdateCheckResponse`: the parameters of
the dataclass constructor (`inspect.signature(cls).parameters`). -/
def knownKeys : List String :=
  ["version", "launcherUrl", "apiVersion", "launcherHash", "apiCompatTo",
   "changesUrl", "launcherInteractiveUrl"]

/-- Constructor parameters without a default value
(`value.default is value.empty`). -/
def requiredKeys : List String := ["version", "launcherUrl", "apiVersion"]

/-- Character-level split at the first occurrence of the two-character
separator ": ": `none` when the separator never occurs. -/
def splitSepAux : List Char → Option (List Char × List Char)
  | [] => none
  | [_] => none
  | ':' :: ' ' :: rest => some ([], rest)
  | c :: rest =>
    match splitSepAux rest with
    | none => none
    | some (pre, post) => some (c :: pre, post)

/-- Python `line.split(": ", 1)`: `none` when the separator is absent (the
source raises `ValueError` there), otherwise the text before the first
separator paired with everything after it. -/
def splitKeyValue (line : String) : Option (String × String) :=
  match splitSepAux line.toList with
  | none => none
  | some (pre, post) => some (⟨pre⟩, ⟨post⟩)

/-- Python `str.splitlines()` restricted to `\n` separators: like
`String.splitOn "\n"` except that a trailing newline does not contribute a
final empty line and the empty string has no lines. -/
def splitlines (s : String) : List String :=
  let parts := s.splitOn "\n"
  if s.endsWith "\n" ∨ s = "" then parts.dropLast else parts

/-- Metadata dictionary built by the parse loop: Python `dict[str, str]`
modelled as a lookup function (`none` = key absent). -/
def Metadata : Type := String → Option String

/-- Python `{}`. -/
def emptyMetadata : Metadata := fun _ => none

/-- Python `metadata[key] = val`: later writes win on lookup. -/
def setKey (m : Metadata) (k v : String) : Metadata :=
  fun q => if q = k then some v else m q

/-- Failure modes of `UpdateInfo.parseUpdateCheckResponse` (both raised as
`ValueError` in the source, with messages carrying the offending line
respectively the enumeration of missing required keys). -/
inductive ParseError where
  | invalidLine (line : String)
  | missingRequired (missing : List String)
  deriving Repr, DecidableEq

/-- Per-line loop of `UpdateInfo.parseUpdateCheckResponse` (lines 166-174): a
line without the separator fails the whole parse; a known key is recorded in
the metadata dictionary; an unknown key is dropped (only logged). -/
def collectMetadata : List String → Metadata → Except ParseError Metadata
  | [], m => Except.ok m
  | line :: rest, m =>
    match splitKeyValue line with
    | none => Except.error (ParseError.invalidLine line)
    | some (k, v) =>
      if k ∈ knownKeys then collectMetadata rest (setKey m k v)
      else collectMetadata rest m

/-- Python `cls(**metadata)`: builds the descriptor when the three required
keys are present (the caller has already checked this, so the `none` result is
unreachable there); optional fields default to `none` when unset. -/
def buildInfo (m : Metadata) : Option UpdateInfo :=
  match m "version", m "launcherUrl", m "apiVersion" with
  | some v, some u, some a =>
    some { version := v, launcherUrl := u, apiVersion := a,
           launcherHash := m "launcherHash", apiCompatTo := m "apiCompatTo",
           changesUrl := m "changesUrl",
           launcherInteractiveUrl := m "launcherInteractiveUrl" }
  | _, _, _ => none

/-- Tail of `UpdateInfo.parseUpdateCheckResponse` (lines 175-178) applied to an
already split line list: compute the metadata, fail enumerating the required
keys still missing, otherwise construct the `UpdateInfo`. -/
def parseLines (lines : List String) : Except ParseError UpdateInfo :=
  match collectMetadata lines emptyMetadata with
  | Except.error e => Except.error e
  | Except.ok m =>
    let missing := requiredKeys.filter fun k => (m k).isNone
    if missing = [] then
      match buildInfo m with
      | some info => Except.ok info
      | none => Except.error (ParseError.missingRequired missing)
    else Except.error (ParseError.missingRequired missing)

/-- Whole of `UpdateInfo.parseUpdateCheckResponse` (lines 154-178) on the raw
response text. -/
def parseUpdateCheckResponse (data : String) : Except ParseError UpdateInfo :=
  parseLines (splitlines data)

/-! ## Query client: `checkForUpdate` (source/updateCheck.py, lines 208-280) -/

/-- Value of one query parameter as built in `checkForUpdate`: the source mixes
strings, booleans and possibly-`None` strings in one `params` dict. -/
inductive ParamValue where
  | str (s : String)
  | boolean (b : Bool)
  | optStr (s : Option String)
  deriving Repr, DecidableEq

/-- Ambient data read by `checkForUpdate` when building its parameters:
version information, the OS descriptor, the architecture probes, and the
telemetry sources (stable id from the persisted state, language, installed
flag, driver names, braille table). -/
structure CheckContext where
  version : String
  versionType : String
  osVersionText : String
  x64 : Bool
  osArchitecture : Option String
  stateId : String
  language : String
  installed : Bool
  synthDriver : Option String
  brailleDisplay : Option String
  outputBrailleTable : Option String
  deriving Repr, DecidableEq

/-- Parameter construction of `checkForUpdate` (lines 227-257): the base
parameter set always sent, extended with the telemetry bundle `extraParams`
only when `auto and allowUsageStats`. -/
def checkForUpdateParams (auto allowUsageStats : Bool) (ctx : CheckContext) :
    List (String × ParamValue) :=
  let params : List (String × ParamValue) :=
    [("autoCheck", ParamValue.boolean auto),
     ("allowUsageStats", ParamValue.boolean allowUsageStats),
     ("version", ParamValue.str ctx.version),
     ("versionType", ParamValue.str ctx.versionType),
     ("osVersion", ParamValue.str ctx.osVersionText),
     ("x64", ParamValue.boolean ctx.x64),
     ("osArchitecture", ParamValue.optStr ctx.osArchitecture)]
  if auto && allowUsageStats then
    params ++
      [("id", ParamValue.str ctx.stateId),
       ("language", ParamValue.str ctx.language),
       ("installed", ParamValue.boolean ctx.installed),
       ("synthDriver", ParamValue.optStr ctx.synthDriver),
       ("brailleDisplay", ParamValue.optStr ctx.brailleDisplay),
       ("outputBrailleTable", ParamValue.optStr ctx.outputBrailleTable)]
  else params

/-- Keys of `extraParams` (lines 245-256), sent purely for stats gathering. -/
def telemetryParamKeys : List String :=
  ["id", "language", "installed", "synthDriver", "brailleDisplay",
   "outputBrailleTable"]

/-- Failure modes of `checkForUpdate`: both raised as `RuntimeError` in the
source (non-200 status code, or a `ValueError` from the parser). -/
inductive CheckError where
  | httpStatus (code : Nat)
  | invalidResponse
  deriving Repr, DecidableEq

/-- Response handling of `checkForUpdate` (lines 259-280).  The HTTP fetch
(`_fetchUrlAndUpdateRootCertificates`, external to this module) is a function
parameter from the query parameters to a status code and a decoded body.  A
non-200 status raises; an empty body means "no update" (`none`); otherwise the
body is parsed, a parse failure being re-raised as `RuntimeError`. -/
def checkForUpdate (auto allowUsageStats : Bool) (ctx : CheckContext)
    (fetch : List (String × ParamValue) → Nat × String) :
    Except CheckError (Option UpdateInfo) :=
  let result := fetch (checkForUpdateParams auto allowUsageStats ctx)
  if result.1 ≠ 200 then Except.error (CheckError.httpStatus result.1)
  else if result.2 = "" then Except.ok none
  else
    match parseUpdateCheckResponse result.2 with
    | Except.error _ => Except.error CheckError.invalidResponse
    | Except.ok info => Except.ok (some info)

/-! ## Scheduler: `AutoUpdateChecker.__init__` (lines 463-474) -/

/-- Constant `CHECK_INTERVAL = 86400` (line 107), in seconds. -/
def CHECK_INTERVAL : Int := 86400

/-- Constant `RETRY_INTERVAL = 600` (line 109), in seconds. -/
def RETRY_INTERVAL : Int := 600

/-- Initial timer delay of `AutoUpdateChecker.__init__` in seconds.
`startupNotificationDue` stands for
`config.conf["update"]["startupNotification"] and isPendingUpdate()`; when it
is false the source computes `secsSinceLast = max(time.time() - lastCheck, 0)`
and `secsTillNext = CHECK_INTERVAL - int(min(secsSinceLast, CHECK_INTERVAL))`
(`int` truncation is the identity on the integer times modelled here). -/
def autoUpdateCheckerInitialDelay (startupNotificationDue : Bool)
    (now lastCheck : Int) : Int :=
  if startupNotificationDue then 0
  else CHECK_INTERVAL - min (max (now - lastCheck) 0) CHECK_INTERVAL

/-! ## Installer handoff parameters: `_generate_updateParameters` (lines 341-366) -/

/-- Argument vector built by `_generate_updateParameters` (the source
serialises it with `subprocess.list2cmdline`; the vector itself is modelled).
Three run modes: installed copy, portable copy whose own directory
(`globalVars.appDir`) is writable, portable copy without write access; then
the optional add-ons-disabled flag and always the configuration directory. -/
def _generate_updateParameters (isInstalledCopy : Bool) (appDir : String)
    (appDirWritable : Bool) (disableAddons : Bool) (configDir : String) :
    List String :=
  let executeParams :=
    if isInstalledCopy then ["--install", "-m"]
    else if appDirWritable then ["--create-portable", "-m", "--portable-path", appDir]
    else ["--launcher"]
  let executeParams :=
    if disableAddons then executeParams ++ ["--disable-addons"] else executeParams
  executeParams ++ ["--config-path", configDir]

/-! ## Persisted state (lines 121-122, 283-338, 1007-1047) -/

/-- Add-on API version triple. -/
abbrev ApiVersion : Type := Nat × Nat × Nat

/-- Persisted `state` dictionary.  The four pending fields model Python dict
entries that may be absent: the outer `Option` is key presence (`none` = the
key is not in the dict, as a freshly unpickled legacy state may lack it), the
inner value is the stored Python value (`none` = stored `None`). -/
structure PersistedState where
  lastCheck : Int
  dontRemindVersion : Option String
  idKey : Option String
  pendingUpdateFile : Option (Option String)
  pendingUpdateVersion : Option (Option String)
  pendingUpdateAPIVersion : Option (Option ApiVersion)
  pendingUpdateBackCompatToAPIVersion : Option (Option ApiVersion)
  deriving Repr, DecidableEq

/-- Mirrors `_setStateToNone` (lines 283-287): stores `None` in the two
pending identity fields and `(0, 0, 0)` in the two API-version fields (all
four keys become present). -/
def _setStateToNone (s : PersistedState) : PersistedState :=
  { s with
    pendingUpdateFile := some none,
    pendingUpdateVersion := some none,
    pendingUpdateAPIVersion := some (some (0, 0, 0)),
    pendingUpdateBackCompatToAPIVersion := some (some (0, 0, 0)) }

/-- Mirrors `getPendingUpdate` (lines 290-310).  `fileExists` models
`os.path.isfile`.  A `KeyError` on any of the four reads resets the state and
returns `None`; so does a falsy (`None` or empty) or nonexistent
`pendingUpdateFile`.  Otherwise the tuple is returned, the two API fields
defaulting falsy stored values to `(0, 0, 0)` (Python `x or (0, 0, 0)`). -/
def getPendingUpdate (fileExists : String → Bool) (s : PersistedState) :
    PersistedState × Option (String × Option String × ApiVersion × ApiVersion) :=
  match s.pendingUpdateFile, s.pendingUpdateVersion,
        s.pendingUpdateAPIVersion, s.pendingUpdateBackCompatToAPIVersion with
  | some pFile, some pVer, some pApi, some pBack =>
    match pFile with
    | some f =>
      if f ≠ "" ∧ fileExists f then
        (s, some (f, pVer, pApi.getD (0, 0, 0), pBack.getD (0, 0, 0)))
      else (_setStateToNone s, none)
    | none => (_setStateToNone s, none)
  | _, _, _, _ => (_setStateToNone s, none)

/-- Result of module start-up: the state after `initialize` returns, and
whether an `AutoUpdateChecker` was created. -/
structure InitResult where
  state : PersistedState
  autoCheckerCreated : Bool
  deriving Repr, DecidableEq

/-- State normalization of `initialize` (lines 1009-1032): `loaded` is the
unpickled state, `none` when the state file is missing or corrupt (the source
then falls back to defaults plus `_setStateToNone`); a missing `id` key is
filled with a fresh UUID (`freshId`); the pending group is reset when the
`pendingUpdateVersion` key is absent or equals the running version. -/
def normalizeLoadedState (loaded : Option PersistedState)
    (runningVersion freshId : String) : PersistedState :=
  let s :=
    match loaded with
    | some st => st
    | none =>
      _setStateToNone
        { lastCheck := 0, dontRemindVersion := none, idKey := none,
          pendingUpdateFile := none, pendingUpdateVersion := none,
          pendingUpdateAPIVersion := none,
          pendingUpdateBackCompatToAPIVersion := none }
  let s := if s.idKey = none then { s with idKey := some freshId } else s
  if s.pendingUpdateVersion = none ∨
      s.pendingUpdateVersion = some (some runningVersion) then
    _setStateToNone s
  else s

/-- Mirrors `initialize` (lines 1007-1047) without the update-directory file
sweep (lines 1034-1041), which never touches the state dictionary.  After the
normalization, `autoChecker` is created when not running as launcher and
either automatic checking is on or a start-up notification is due; the
short-circuit evaluation of
`autoCheck or (startupNotification and isPendingUpdate())` and the repeated
`startupNotification and isPendingUpdate()` inside
`AutoUpdateChecker.__init__` each call `getPendingUpdate`, which mutates the
state, exactly as often as the source does. -/
def initializeUpdateState (loaded : Option PersistedState)
    (runningVersion freshId : String)
    (launcherFlag autoCheck startupNotification : Bool)
    (fileExists : String → Bool) : InitResult :=
  let s := normalizeLoadedState loaded runningVersion freshId
  if launcherFlag then ⟨s, false⟩
  else if autoCheck then
    if startupNotification then ⟨(getPendingUpdate fileExists s).1, true⟩
    else ⟨s, true⟩
  else if startupNotification then
    let r := getPendingUpdate fileExists s
    if r.2.isSome then ⟨(getPendingUpdate fileExists r.1).1, true⟩
    else ⟨r.1, false⟩
  else ⟨s, false⟩

/-! ## Installer handoff: `_executeUpdate` (lines 326-338) -/

/-- Observable side effects of `_executeUpdate`, in order of occurrence:
`saveState()` with the state it persists, the
`core.triggerNVDAExit(core.NewNVDAInstance(destPath, params))` request, and
`log.error` messages. -/
inductive HostAction where
  | saveState (s : PersistedState)
  | triggerExit (destPath : String) (params : List String)
  | logError (msg : String)
  deriving Repr, DecidableEq

/-- Mirrors `_executeUpdate` (lines 326-338).  `alreadyExiting` models
`core.triggerNVDAExit` returning `False` (host already in the process of
exiting).  An empty `destPath` only logs an error.  Otherwise the state is
reset and saved, then the single exit request is made; a refused request is
reported as a logic error, with no second attempt. -/
def _executeUpdate (alreadyExiting : Bool) (s : PersistedState)
    (destPath : String) (updateParams : List String) :
    PersistedState × List HostAction :=
  if destPath = "" then
    (s, [HostAction.logError "destPath must be a non-empty string."])
  else
    let s2 := _setStateToNone s
    if alreadyExiting then
      (s2, [HostAction.saveState s2, HostAction.triggerExit destPath updateParams,
            HostAction.logError
              "NVDA already in process of exiting, this indicates a logic error."])
    else
      (s2, [HostAction.saveState s2, HostAction.triggerExit destPath updateParams])

/-! ## Check worker: `UpdateChecker._bg` and `AutoUpdateChecker._result`
(lines 388-407, 491-496) -/

/-- Outcome of one `UpdateChecker._bg` run. -/
structure CheckerRun where
  finalState : PersistedState
  saved : Bool
  savedState : Option PersistedState
  notified : Bool
  errorHandled : Bool
  deriving Repr, DecidableEq

/-- Mirrors `UpdateChecker._bg` (lines 388-407), for both the manual checker
(`auto = false`, whose `_result` always opens the result dialog) and
`AutoUpdateChecker` (`auto = true`, whose `_result` (lines 491-496) drops the
notification when there is no update or the version equals the stored
`dontRemindVersion`).  `sameMonth` models the `(year, month)` comparison
against `lastCheck`; a month change regenerates the id.  `checkOutcome` is
`checkForUpdate`'s result, `none` when it raised.  On success `_result` runs
first, then `dontRemindVersion` is set to the returned version (when any),
`lastCheck` is set to the current time, and the state is saved. -/
def checkerBg (auto : Bool) (sameMonth : Bool) (freshId : String)
    (checkOutcome : Option (Option UpdateInfo)) (now : Int)
    (s : PersistedState) : CheckerRun :=
  let s1 := if sameMonth then s else { s with idKey := some freshId }
  match checkOutcome with
  | none => ⟨s1, false, none, false, true⟩
  | some info =>
    let notified :=
      if auto then
        match info with
        | none => false
        | some i => decide (¬s1.dontRemindVersion = some i.version)
      else true
    let s2 :=
      match info with
      | some i => { s1 with dontRemindVersion := some i.version }
      | none => s1
    let s3 := { s2 with lastCheck := now }
    ⟨s3, true, some s3, notified, false⟩

/-! ## Downloader: `UpdateDownloader._download` and `UpdateDownloader._bg`
(lines 840-901) -/

/-- Constant `DOWNLOAD_BLOCK_SIZE = 8192` (line 111), in bytes. -/
def DOWNLOAD_BLOCK_SIZE : Nat := 8192

/-- Remote stream opened by `urllib.request.urlopen` at one mirror: HTTP
status code, declared `content-length`, and the byte sequence the stream will
deliver before reporting end of stream. -/
structure RemoteResponse where
  code : Nat
  size : Nat
  body : List Nat
  deriving Repr, DecidableEq

/-- Failure modes of `UpdateDownloader._download` (all raised as
`RuntimeError`): non-200 status, fewer bytes than `content-length`
("Content too short"), digest mismatch ("Content has incorrect file hash"). -/
inductive DownloadError where
  | badStatus (code : Nat)
  | contentTooShort
  | hashMismatch
  deriving Repr, DecidableEq

/-- Normal returns of `UpdateDownloader._download`: an early return because
the cancellation flag was seen set (partial bytes written so far), or a
completed, verified download.  The source distinguishes these only through
`self._shouldCancel`, read again by `_bg`. -/
inductive DownloadOutcome where
  | canceled (written : List Nat)
  | completed (written : List Nat)
  deriving Repr, DecidableEq

/-- Bytes at the destination file when `_download` returned normally. -/
def DownloadOutcome.written : DownloadOutcome → List Nat
  | DownloadOutcome.canceled w => w
  | DownloadOutcome.completed w => w

/-- Post-loop verification of `UpdateDownloader._download` (lines 897-900):
short content, then (for a truthy expected hash) the digest comparison.
`hex` is the SHA-1 hex digest of the bytes written. -/
def downloadFinish (hex : List Nat → String) (fileHash : Option String)
    (size read : Nat) (written : List Nat) : Except DownloadError DownloadOutcome :=
  if read < size then Except.error DownloadError.contentTooShort
  else
    match fileHash with
    | some h =>
      if h ≠ "" ∧ hex written ≠ h then Except.error DownloadError.hashMismatch
      else Except.ok (DownloadOutcome.completed written)
    | none => Except.ok (DownloadOutcome.completed written)

/-- Streaming loop of `UpdateDownloader._download` (lines 876-900).  Each
iteration checks the cancellation flag, clamps the chunk to the bytes still
owed (`if size - read < chunk: chunk = size - read`, so the chunk is always
`min DOWNLOAD_BLOCK_SIZE (size - read)`), reads a block, stops at end of
stream, re-checks the flag, then appends the block to the file and the
digest.  `shouldCancel` models a run during which the flag does not change;
the progress reports (`_guiExec`) have no effect on the result. -/
def downloadLoop (hex : List Nat → String) (fileHash : Option String)
    (shouldCancel : Bool) (size : Nat) (remaining : List Nat) (read : Nat)
    (written : List Nat) : Except DownloadError DownloadOutcome :=
  if shouldCancel then Except.ok (DownloadOutcome.canceled written)
  else if hb : remaining.take (min DOWNLOAD_BLOCK_SIZE (size - read)) = [] then
    downloadFinish hex fileHash size read written
  else if shouldCancel then Except.ok (DownloadOutcome.canceled written)
  else
    downloadLoop hex fileHash shouldCancel size
      (remaining.drop (min DOWNLOAD_BLOCK_SIZE (size - read)))
      (read + (remaining.take (min DOWNLOAD_BLOCK_SIZE (size - read))).length)
      (written ++ remaining.take (min DOWNLOAD_BLOCK_SIZE (size - read)))
termination_by remaining.length
decreasing_by
  simp only [List.take_eq_nil_iff, not_or] at hb
  simp only [List.length_drop]
  have h1 : remaining.length ≠ 0 := fun h => hb.2 (List.eq_nil_of_length_eq_zero h)
  omega

/-- Mirrors `UpdateDownloader._download` (lines 863-901) for one mirror:
rejects a non-200 status, then streams `resp.body` against the declared
`resp.size` into a freshly truncated destination file (`open(..., "wb")`),
starting with nothing read or written. -/
def _download (hex : List Nat → String) (fileHash : Option String)
    (shouldCancel : Bool) (resp : RemoteResponse) :
    Except DownloadError DownloadOutcome :=
  if resp.code ≠ 200 then Except.error (DownloadError.badStatus resp.code)
  else downloadLoop hex fileHash shouldCancel resp.size resp.body 0 []

/-- Overall outcome of `UpdateDownloader._bg`: every mirror failed
(`self._guiExec(self._error)`), a cancelled run (partial file removed, no
error surfaced), or a successful download handed to `_downloadSuccess`. -/
inductive BgOutcome where
  | errorReported
  | canceledQuiet
  | success (written : List Nat)
  deriving Repr, DecidableEq

/-- Observable result of one `UpdateDownloader._bg` run: the mirror URLs
attempted in order, the outcome, and whether `os.remove(self.destPath)` was
invoked. -/
structure BgRun where
  attempted : List String
  outcome : BgOutcome
  removedPartialFile : Bool
  deriving Repr, DecidableEq

/-- Mirrors `UpdateDownloader._bg` (lines 840-861).  `responses` maps each
mirror URL to the remote stream it serves.  A `_download` exception is logged
and the next mirror is tried; a normal return breaks out of the loop, with
`success = not self._shouldCancel`; exhausting all URLs reports the overall
error (`for ... else`); a non-success break removes the partial file and
returns quietly. -/
def _bg (hex : List Nat → String) (fileHash : Option String)
    (shouldCancel : Bool) (responses : String → RemoteResponse) :
    List String → BgRun
  | [] => ⟨[], BgOutcome.errorReported, false⟩
  | url :: rest =>
    match _download hex fileHash shouldCancel (responses url) with
    | Except.error _ =>
      let r := _bg hex fileHash shouldCancel responses rest
      ⟨url :: r.attempted, r.outcome, r.removedPartialFile⟩
    | Except.ok out =>
      if shouldCancel then ⟨[url], BgOutcome.canceledQuiet, true⟩
      else ⟨[url], BgOutcome.success out.written, false⟩

/-- Mirror URL list of `UpdateDownloader.__init__` (line 797):
`updateInfo.launcherUrl.split(" ")`. -/
def downloaderUrls (info : UpdateInfo) : List String :=
  info.launcherUrl.splitOn " "

/-- Concrete digest function for counterexamples and witnesses: a stand-in
SHA-1 that is computable in the kernel. -/
def exHex (bytes : List Nat) : String :=
  if bytes = [0, 1, 2] then "0b" else "ff"

/-- Concrete single-mirror response family for counterexamples and
witnesses: every URL serves a 3-byte body with a declared size of 3. -/
def exResponses (_ : String) : RemoteResponse :=
  ⟨200, 3, [0, 1, 2]⟩

/-- Concrete metadata dictionary reached by the parser on the witness input. -/
def exMetadata : Metadata :=
  setKey (setKey (setKey emptyMetadata "version" "1.0") "launcherUrl" "u1 u2")
    "apiVersion" "2025.1"

/-- Predicate: the pending group holds exactly the values written by
`_setStateToNone` (all four keys present, identity fields `None`, API fields
`(0, 0, 0)`). -/
def pendingGroupReset (s : PersistedState) : Prop :=
  s.pendingUpdateFile = some none ∧ s.pendingUpdateVersion = some none ∧
  s.pendingUpdateAPIVersion = some (some (0, 0, 0)) ∧
  s.pendingUpdateBackCompatToAPIVersion = some (some (0, 0, 0))

/-- Concrete check context for witnesses. -/
def exCtx : CheckContext :=
  ⟨"2025.1", "stable", "10.0.19041 workstation", true, some "AMD64",
   "id0", "en", true, some "espeak (core)", none, none⟩

/-- Concrete update descriptor for witnesses. -/
def exInfo : UpdateInfo :=
  { version := "2026.1", launcherUrl := "u1 u2", apiVersion := "2026.1.0" }

/-- Concrete persisted state for witnesses: nothing pending, a stored
do-not-remind version equal to `exInfo`'s. -/
def exState : PersistedState :=
  ⟨0, some "2026.1", some "id0", some none, some none, some (some (0, 0, 0)),
   some (some (0, 0, 0))⟩

/-- Concrete persisted state whose pending artifact path does not exist and
whose pending version differs from the running version. -/
def exStalePending : PersistedState :=
  ⟨0, none, some "id0", some (some "X:/gone.exe"), some (some "2099.1"),
   some (some (2026, 1, 0)), some (some (2013, 3, 0))⟩

/-- Concrete mirror family for witnesses: mirror "A" serves an HTTP 500,
every other mirror serves the 3-byte body. -/
def exMirrors (u : String) : RemoteResponse :=
  if u = "A" then ⟨500, 3, [0, 1, 2]⟩ else ⟨200, 3, [0, 1, 2]⟩

/-- Concrete under-delivering response for witnesses: 4 declared bytes, only
3 delivered. -/
def exShortResp : RemoteResponse := ⟨200, 4, [0, 1, 2]⟩

/-! ## Theorems -/

/-- Helper: when every line contains the separator, the metadata collection
loop succeeds. -/
theorem collectMetadata_ok_of_splits :
    ∀ (lines : List String) (m0 : Metadata),
      (∀ l ∈ lines, (splitKeyValue l).isSome) →
      ∃ m, collectMetadata lines m0 = Except.ok m := by
  intro lines
  induction lines with
  | nil => exact fun m0 _ => ⟨m0, rfl⟩
  | cons l rest ih =>
    intro m0 h
    have hl := h l (List.mem_cons_self l rest)
    cases hsp : splitKeyValue l with
    | none => rw [hsp] at hl; simp at hl
    | some kv =>
      obtain ⟨k, v⟩ := kv
      have hrest : ∀ x ∈ rest, (splitKeyValue x).isSome :=
        fun x hx => h x (List.mem_cons_of_mem _ hx)
      by_cases hk : k ∈ knownKeys
      · obtain ⟨m, hm⟩ := ih (setKey m0 k v) hrest
        exact ⟨m, by simp [collectMetadata, hsp, hk, hm]⟩
      · obtain ⟨m, hm⟩ := ih m0 hrest
        exact ⟨m, by simp [collectMetadata, hsp, hk, hm]⟩

/-- Helper: an empty missing-key filter means the three required keys are
present in the metadata. -/
theorem required_present {m : Metadata}
    (h : requiredKeys.filter (fun k => (m k).isNone) = []) :
    ∃ v u a, m "version" = some v ∧ m "launcherUrl" = some u ∧
      m "apiVersion" = some a := by
  cases hv : m "version" with
  | none => simp [requiredKeys, List.filter_cons, hv] at h
  | some v =>
    cases hu : m "launcherUrl" with
    | none => simp [requiredKeys, List.filter_cons, hv, hu] at h
    | some u =>
      cases ha : m "apiVersion" with
      | none => simp [requiredKeys, List.filter_cons, hv, hu, ha] at h
      | some a => exact ⟨v, u, a, rfl, rfl, rfl⟩

/-- Helper: successful parse, described through the collected metadata. -/
theorem parseLines_ok {lines : List String} {m : Metadata}
    (hc : collectMetadata lines emptyMetadata = Except.ok m)
    (hmiss : requiredKeys.filter (fun k => (m k).isNone) = []) :
    ∃ info, parseLines lines = Except.ok info ∧
      some info.version = m "version" ∧
      some info.launcherUrl = m "launcherUrl" ∧
      some info.apiVersion = m "apiVersion" ∧
      info.launcherHash = m "launcherHash" ∧
      info.apiCompatTo = m "apiCompatTo" ∧
      info.changesUrl = m "changesUrl" ∧
      info.launcherInteractiveUrl = m "launcherInteractiveUrl" := by
  obtain ⟨v, u, a, hv, hu, ha⟩ := required_present hmiss
  refine ⟨{ version := v, launcherUrl := u, apiVersion := a,
            launcherHash := m "launcherHash", apiCompatTo := m "apiCompatTo",
            changesUrl := m "changesUrl",
            launcherInteractiveUrl := m "launcherInteractiveUrl" },
          ?_, hv.symm, hu.symm, ha.symm, rfl, rfl, rfl, rfl⟩
  simp [parseLines, hc, hmiss, buildInfo, hv, hu, ha]

/-- Helper: parse failure enumerating exactly the missing required keys. -/
theorem parseLines_missing {lines : List String} {m : Metadata}
    (hc : collectMetadata lines emptyMetadata = Except.ok m)
    (hmiss : requiredKeys.filter (fun k => (m k).isNone) ≠ []) :
    parseLines lines =
      Except.error (ParseError.missingRequired
        (requiredKeys.filter fun k => (m k).isNone)) := by
  simp [parseLines, hc, hmiss]

/-- Helper: a line without the separator fails the metadata collection with
an invalid-line error. -/
theorem collectMetadata_invalid :
    ∀ (lines : List String) (m0 : Metadata),
      (∃ l ∈ lines, splitKeyValue l = none) →
      ∃ l, collectMetadata lines m0 = Except.error (ParseError.invalidLine l) ∧
        splitKeyValue l = none := by
  intro lines
  induction lines with
  | nil => rintro m0 ⟨l, hl, -⟩; cases hl
  | cons x rest ih =>
    rintro m0 ⟨l, hl, hsp⟩
    cases hx : splitKeyValue x with
    | none => exact ⟨x, by simp [collectMetadata, hx], hx⟩
    | some kv =>
      obtain ⟨k, v⟩ := kv
      have hlr : l ∈ rest := by
        rcases List.mem_cons.mp hl with h | h
        · rw [h, hx] at hsp; cases hsp
        · exact h
      by_cases hk : k ∈ knownKeys
      · obtain ⟨l', h1, h2⟩ := ih (setKey m0 k v) ⟨l, hlr, hsp⟩
        exact ⟨l', by simp [collectMetadata, hx, hk, h1], h2⟩
      · obtain ⟨l', h1, h2⟩ := ih m0 ⟨l, hlr, hsp⟩
        exact ⟨l', by simp [collectMetadata, hx, hk, h1], h2⟩

/-- Helper: a line with an unknown key is invisible to the metadata
collection. -/
theorem collectMetadata_skip_unknown {line k v : String}
    (hsp : splitKeyValue line = some (k, v)) (hk : k ∉ knownKeys) :
    ∀ (pre post : List String) (m0 : Metadata),
      collectMetadata (pre ++ line :: post) m0 =
        collectMetadata (pre ++ post) m0 := by
  intro pre
  induction pre with
  | nil => intro post m0; simp [collectMetadata, hsp, hk]
  | cons p pre ih =>
    intro post m0
    cases hp : splitKeyValue p with
    | none => simp [collectMetadata, hp]
    | some kv =>
      obtain ⟨k', v'⟩ := kv
      by_cases hk' : k' ∈ knownKeys
      · simp [collectMetadata, hp, hk', ih]
      · simp [collectMetadata, hp, hk', ih]

/-- C1: for a response text whose lines each contain the ": " separator the
metadata collection succeeds, and when all required keys were collected the
parse succeeds and round-trips the known fields (optional fields defaulting
to `none` when unset); when required keys are absent after collection the
parse fails enumerating exactly the missing keys; a line without the
separator fails the whole parse; a line with an unknown key is dropped
without affecting the result. -/
theorem C1_parse_response :
    (∀ data, parseUpdateCheckResponse data = parseLines (splitlines data))
    ∧ (∀ lines, (∀ l ∈ lines, (splitKeyValue l).isSome) →
        ∃ m, collectMetadata lines emptyMetadata = Except.ok m)
    ∧ (∀ lines m, collectMetadata lines emptyMetadata = Except.ok m →
        (requiredKeys.filter (fun k => (m k).isNone) = [] →
          ∃ info, parseLines lines = Except.ok info ∧
            some info.version = m "version" ∧
            some info.launcherUrl = m "launcherUrl" ∧
            some info.apiVersion = m "apiVersion" ∧
            info.launcherHash = m "launcherHash" ∧
            info.apiCompatTo = m "apiCompatTo" ∧
            info.changesUrl = m "changesUrl" ∧
            info.launcherInteractiveUrl = m "launcherInteractiveUrl") ∧
        (requiredKeys.filter (fun k => (m k).isNone) ≠ [] →
          parseLines lines =
            Except.error (ParseError.missingRequired
              (requiredKeys.filter fun k => (m k).isNone))))
    ∧ (∀ lines, (∃ l ∈ lines, splitKeyValue l = none) →
        ∃ l, parseLines lines = Except.error (ParseError.invalidLine l) ∧
          splitKeyValue l = none)
    ∧ (∀ (pre post : List String) (line k v : String),
        splitKeyValue line = some (k, v) → k ∉ knownKeys →
        parseLines (pre ++ line :: post) = parseLines (pre ++ post)) := by
  refine ⟨fun _ => rfl,
    fun lines h => collectMetadata_ok_of_splits lines emptyMetadata h, ?_, ?_, ?_⟩
  · intro lines m hc
    exact ⟨fun h => parseLines_ok hc h, fun h => parseLines_missing hc h⟩
  · intro lines hbad
    obtain ⟨l, h1, h2⟩ := collectMetadata_invalid lines emptyMetadata hbad
    exact ⟨l, by simp [parseLines, h1], h2⟩
  · intro pre post line k v hsp hk
    simp [parseLines, collectMetadata_skip_unknown hsp hk]

/-- Witness for C1 at concrete inputs. -/
theorem C1_parse_response_witness :
    (∀ l ∈ ["version: 1.0", "launcherUrl: u1 u2", "apiVersion: 2025.1",
            "bogus: zzz"], (splitKeyValue l).isSome)
    ∧ collectMetadata ["version: 1.0", "launcherUrl: u1 u2",
        "apiVersion: 2025.1", "bogus: zzz"] emptyMetadata = Except.ok exMetadata
    ∧ requiredKeys.filter (fun k => (exMetadata k).isNone) = []
    ∧ (∃ info, parseLines ["version: 1.0", "launcherUrl: u1 u2",
          "apiVersion: 2025.1", "bogus: zzz"] = Except.ok info ∧
        some info.version = exMetadata "version")
    ∧ parseLines ["version: 1.0"] =
        Except.error (ParseError.missingRequired ["launcherUrl", "apiVersion"])
    ∧ (∃ l, parseLines ["version: 1.0", "junk line", "apiVersion: 2"] =
          Except.error (ParseError.invalidLine l) ∧ splitKeyValue l = none)
    ∧ parseLines (["version: 1.0"] ++ "bogus: zzz" :: ["apiVersion: 2"]) =
        parseLines (["version: 1.0"] ++ ["apiVersion: 2"])
    ∧ parseUpdateCheckResponse "version: 1.0" =
        parseLines (splitlines "version: 1.0") := by
  obtain ⟨hresp, hok, hreq, hinv, hunk⟩ := C1_parse_response
  refine ⟨by decide, rfl, by decide, ?_, ?_, ?_, ?_, hresp "version: 1.0"⟩
  · obtain ⟨info, h1, h2, -⟩ :=
      (hreq ["version: 1.0", "launcherUrl: u1 u2", "apiVersion: 2025.1",
             "bogus: zzz"] exMetadata rfl).1 (by decide)
    exact ⟨info, h1, h2⟩
  · exact (hreq ["version: 1.0"] (setKey emptyMetadata "version" "1.0") rfl).2
      (by decide)
  · exact hinv _ ⟨"junk line", by decide, by decide⟩
  · exact hunk ["version: 1.0"] ["apiVersion: 2"] "bogus: zzz" "bogus" "zzz"
      (by decide) (by decide)

/-- C5: when no pending-update start-up notification is due, the scheduler's
initial delay equals CHECK_INTERVAL minus min(elapsed, CHECK_INTERVAL) with
elapsed = now − lastCheck floored at zero; the delay is never negative (even
when the clock moved backwards), it is 0 for lastCheck = now − 2·CHECK_INTERVAL
and CHECK_INTERVAL for lastCheck = now. -/
theorem C5_scheduler_delay :
    (∀ now lastCheck : Int,
      autoUpdateCheckerInitialDelay false now lastCheck =
        CHECK_INTERVAL - min (max (now - lastCheck) 0) CHECK_INTERVAL)
    ∧ (∀ now lastCheck : Int,
        0 ≤ autoUpdateCheckerInitialDelay false now lastCheck)
    ∧ (∀ now : Int,
        autoUpdateCheckerInitialDelay false now (now - 2 * CHECK_INTERVAL) = 0)
    ∧ (∀ now : Int,
        autoUpdateCheckerInitialDelay false now now = CHECK_INTERVAL) := by
  refine ⟨fun now lastCheck => rfl, ?_, ?_, ?_⟩
  · intro now lastCheck
    simp only [autoUpdateCheckerInitialDelay, CHECK_INTERVAL, Bool.false_eq_true,
      if_false]
    omega
  · intro now
    simp only [autoUpdateCheckerInitialDelay, CHECK_INTERVAL, Bool.false_eq_true,
      if_false]
    omega
  · intro now
    simp only [autoUpdateCheckerInitialDelay, CHECK_INTERVAL, Bool.false_eq_true,
      if_false]
    omega

/-- C7: when the check is not automatic or usage-stats sharing is disabled,
no telemetry parameter (id, language, installed, synthDriver, brailleDisplay,
outputBrailleTable) appears in the query parameter set; a telemetry parameter
appears only when both conditions hold. -/
theorem C7_telemetry_gating :
    (∀ (auto allowUsageStats : Bool) (ctx : CheckContext) (k : String)
       (v : ParamValue),
      (auto = false ∨ allowUsageStats = false) → k ∈ telemetryParamKeys →
      (k, v) ∉ checkForUpdateParams auto allowUsageStats ctx)
    ∧ (∀ (auto allowUsageStats : Bool) (ctx : CheckContext) (k : String)
        (v : ParamValue),
        k ∈ telemetryParamKeys →
        (k, v) ∈ checkForUpdateParams auto allowUsageStats ctx →
        auto = true ∧ allowUsageStats = true) := by
  constructor
  · intro auto allow ctx k v hor hk hmem
    have hcond : (auto && allow) = false := by
      rcases hor with h | h <;> simp [h]
    rw [checkForUpdateParams] at hmem
    rw [hcond] at hmem
    simp only [Bool.false_eq_true, if_false, List.mem_cons, List.not_mem_nil,
      or_false, Prod.mk.injEq] at hmem
    simp only [telemetryParamKeys, List.mem_cons, List.not_mem_nil, or_false]
      at hk
    rcases hk with rfl | rfl | rfl | rfl | rfl | rfl <;> simp at hmem
  · intro auto allow ctx k v hk hmem
    cases hauto : auto with
    | true =>
      cases hallow : allow with
      | true => exact ⟨rfl, rfl⟩
      | false =>
        subst hauto hallow
        have hcond : (true && false) = false := rfl
        rw [checkForUpdateParams, hcond] at hmem
        simp only [Bool.false_eq_true, if_false, List.mem_cons,
          List.not_mem_nil, or_false, Prod.mk.injEq] at hmem
        simp only [telemetryParamKeys, List.mem_cons, List.not_mem_nil,
          or_false] at hk
        rcases hk with rfl | rfl | rfl | rfl | rfl | rfl <;> simp at hmem
    | false =>
      subst hauto
      have hcond : (false && allow) = false := rfl
      rw [checkForUpdateParams, hcond] at hmem
      simp only [Bool.false_eq_true, if_false, List.mem_cons,
        List.not_mem_nil, or_false, Prod.mk.injEq] at hmem
      simp only [telemetryParamKeys, List.mem_cons, List.not_mem_nil,
        or_false] at hk
      rcases hk with rfl | rfl | rfl | rfl | rfl | rfl <;> simp at hmem

/-- Witness for C7 at concrete inputs. -/
theorem C7_telemetry_gating_witness :
    ((false : Bool) = false ∨ (true : Bool) = false)
    ∧ "id" ∈ telemetryParamKeys
    ∧ ("id", ParamValue.str "id0") ∉ checkForUpdateParams false true exCtx
    ∧ (("id", ParamValue.str "id0") ∈ checkForUpdateParams true true exCtx →
        (true : Bool) = true ∧ (true : Bool) = true) := by
  refine ⟨Or.inl rfl, by decide, ?_, ?_⟩
  · exact C7_telemetry_gating.1 false true exCtx "id" (ParamValue.str "id0")
      (Or.inl rfl) (by decide)
  · exact fun h =>
      C7_telemetry_gating.2 true true exCtx "id" (ParamValue.str "id0")
        (by decide) h

/-- C8: the installer-handoff argument vector is a deterministic function of
the run mode — install flags plus silent flag for an installed copy, the
portable-create flags plus the application directory for a writable portable
copy, only the launcher flag otherwise — with the add-ons-disabled flag
appended exactly when add-ons are disabled and the configuration directory
always appended last. -/
theorem C8_update_parameters :
    ∀ (appDir : String) (w d : Bool) (configDir : String),
      (_generate_updateParameters true appDir w d configDir =
        ["--install", "-m"] ++ (if d then ["--disable-addons"] else []) ++
          ["--config-path", configDir])
      ∧ (_generate_updateParameters false appDir true d configDir =
          ["--create-portable", "-m", "--portable-path", appDir] ++
            (if d then ["--disable-addons"] else []) ++
            ["--config-path", configDir])
      ∧ (_generate_updateParameters false appDir false d configDir =
          ["--launcher"] ++ (if d then ["--disable-addons"] else []) ++
            ["--config-path", configDir]) := by
  intro appDir w d configDir
  refine ⟨?_, ?_, ?_⟩ <;> cases d <;> simp [_generate_updateParameters]

/-- C9: a 200 response with an empty body yields the no-update result
(`none`) without an error. -/
theorem C9_empty_response :
    ∀ (auto allowUsageStats : Bool) (ctx : CheckContext)
      (fetch : List (String × ParamValue) → Nat × String),
      fetch (checkForUpdateParams auto allowUsageStats ctx) = (200, "") →
      checkForUpdate auto allowUsageStats ctx fetch = Except.ok none := by
  intro auto allow ctx fetch h
  simp [checkForUpdate, h]

/-- Witness for C9 at concrete inputs. -/
theorem C9_empty_response_witness :
    (fun _ : List (String × ParamValue) => ((200 : Nat), ""))
        (checkForUpdateParams false false exCtx) = (200, "")
    ∧ checkForUpdate false false exCtx (fun _ => (200, "")) = Except.ok none :=
  ⟨rfl, C9_empty_response false false exCtx (fun _ => (200, "")) rfl⟩

/-- C6: for a non-empty artifact path, `_executeUpdate` resets the four
pending fields and persists exactly that state before the shutdown-and-
relaunch request; the request is made exactly once, and a logic error is
reported exactly when the host was already shutting down (no second shutdown
attempt). -/
theorem C6_execute_update :
    ∀ (alreadyExiting : Bool) (s : PersistedState) (destPath : String)
      (updateParams : List String) (r : PersistedState × List HostAction),
      destPath ≠ "" →
      r = _executeUpdate alreadyExiting s destPath updateParams →
      pendingGroupReset r.1
      ∧ r.2.get? 0 = some (HostAction.saveState r.1)
      ∧ r.2.get? 1 = some (HostAction.triggerExit destPath updateParams)
      ∧ r.2.count (HostAction.triggerExit destPath updateParams) = 1
      ∧ (HostAction.logError
            "NVDA already in process of exiting, this indicates a logic error."
          ∈ r.2 ↔ alreadyExiting = true) := by
  intro exiting s destPath updateParams r hne hr
  subst hr
  cases exiting <;>
    simp [_executeUpdate, hne, pendingGroupReset, _setStateToNone,
      List.count_cons, List.count_nil]

/-- Witness for C6 at concrete inputs. -/
theorem C6_execute_update_witness :
    ("C:/nvda_update.exe" ≠ "")
    ∧ (_executeUpdate true exState "C:/nvda_update.exe" ["--install", "-m"] =
        _executeUpdate true exState "C:/nvda_update.exe" ["--install", "-m"])
    ∧ pendingGroupReset
        (_executeUpdate true exState "C:/nvda_update.exe" ["--install", "-m"]).1
    ∧ (HostAction.logError
          "NVDA already in process of exiting, this indicates a logic error."
        ∈ (_executeUpdate true exState "C:/nvda_update.exe"
            ["--install", "-m"]).2 ↔ (true : Bool) = true) := by
  have h := C6_execute_update true exState "C:/nvda_update.exe"
    ["--install", "-m"] _ (by decide) rfl
  exact ⟨by decide, rfl, h.1, h.2.2.2.2⟩

/-- C10: every completed check that returns a descriptor stores the
descriptor's version as `dontRemindVersion` in the state it saves; an
automatic check whose result's version equals the stored `dontRemindVersion`
surfaces no notification, in particular any automatic check directly
following a completed check that returned the same version. -/
theorem C10_dont_remind :
    (∀ (auto sameMonth : Bool) (freshId : String) (i : UpdateInfo) (now : Int)
       (s : PersistedState),
      (checkerBg auto sameMonth freshId (some (some i)) now s).saved = true
      ∧ (checkerBg auto sameMonth freshId (some (some i)) now s).savedState =
          some (checkerBg auto sameMonth freshId (some (some i)) now s).finalState
      ∧ (checkerBg auto sameMonth freshId
            (some (some i)) now s).finalState.dontRemindVersion = some i.version)
    ∧ (∀ (sameMonth : Bool) (freshId : String) (i : UpdateInfo) (now : Int)
        (s : PersistedState), s.dontRemindVersion = some i.version →
        (checkerBg true sameMonth freshId (some (some i)) now s).notified = false)
    ∧ (∀ (auto sameMonth sameMonth2 : Bool) (freshId freshId2 : String)
        (i i2 : UpdateInfo) (now now2 : Int) (s : PersistedState),
        i2.version = i.version →
        (checkerBg true sameMonth2 freshId2 (some (some i2)) now2
          (checkerBg auto sameMonth freshId
            (some (some i)) now s).finalState).notified = false) := by
  refine ⟨?_, ?_, ?_⟩
  · intro auto sameMonth freshId i now s
    cases sameMonth <;> exact ⟨rfl, rfl, rfl⟩
  · intro sameMonth freshId i now s h
    cases sameMonth <;> simp [checkerBg, h]
  · intro auto sameMonth sameMonth2 freshId freshId2 i i2 now now2 s h
    cases sameMonth <;> cases sameMonth2 <;> simp [checkerBg, h]

/-- Witness for C10 at concrete inputs. -/
theorem C10_dont_remind_witness :
    exState.dontRemindVersion = some exInfo.version
    ∧ (checkerBg true true "id1" (some (some exInfo)) 5 exState).notified = false
    ∧ (checkerBg true true "id1" (some (some exInfo)) 5
        exState).finalState.dontRemindVersion = some exInfo.version
    ∧ (checkerBg true false "id2" (some (some exInfo)) 9
        (checkerBg false true "id1" (some (some exInfo)) 5
          exState).finalState).notified = false := by
  refine ⟨rfl, ?_, ?_, ?_⟩
  · exact C10_dont_remind.2.1 true "id1" exInfo 5 exState rfl
  · exact (C10_dont_remind.1 true true "id1" exInfo 5 exState).2.2
  · exact C10_dont_remind.2.2 false true false "id1" "id2" exInfo exInfo 5 9
      exState rfl

/-- Helper: `_setStateToNone` always leaves the pending group reset. -/
theorem setStateToNone_reset (s : PersistedState) :
    pendingGroupReset (_setStateToNone s) := ⟨rfl, rfl, rfl, rfl⟩

/-- Helper: reading the pending update of a reset state resets again and
returns nothing. -/
theorem getPendingUpdate_of_reset (fe : String → Bool) (s : PersistedState)
    (h : pendingGroupReset s) :
    getPendingUpdate fe s = (_setStateToNone s, none) := by
  obtain ⟨h1, h2, h3, h4⟩ := h
  simp [getPendingUpdate, h1, h2, h3, h4]

/-- Helper: a recorded pending file that does not exist makes the pending
read reset the state and return nothing. -/
theorem getPendingUpdate_no_file (fe : String → Bool) (s : PersistedState)
    (f : String) (hf : s.pendingUpdateFile = some (some f))
    (hfe : fe f = false) :
    getPendingUpdate fe s = (_setStateToNone s, none) := by
  obtain ⟨lc, dr, idk, pf, pv, pa, pb⟩ := s
  cases hf
  rcases pv with _ | pv
  · rfl
  · rcases pa with _ | pa
    · rfl
    · rcases pb with _ | pb
      · rfl
      · simp [getPendingUpdate, hfe]

/-- Helper: a pending read that returns nothing leaves the pending group
reset. -/
theorem getPendingUpdate_none_reset (fe : String → Bool) (s : PersistedState)
    (h : (getPendingUpdate fe s).2 = none) :
    pendingGroupReset (getPendingUpdate fe s).1 := by
  obtain ⟨lc, dr, idk, pf, pv, pa, pb⟩ := s
  rcases pf with _ | opf
  · exact setStateToNone_reset _
  · rcases pv with _ | pv
    · exact setStateToNone_reset _
    · rcases pa with _ | pa
      · exact setStateToNone_reset _
      · rcases pb with _ | pb
        · exact setStateToNone_reset _
        · rcases opf with _ | f
          · exact setStateToNone_reset _
          · by_cases hc : f ≠ "" ∧ fe f
            · simp [getPendingUpdate, hc] at h
            · simpa [getPendingUpdate, hc] using setStateToNone_reset _

/-- Helper: start-up normalization with a version match (or missing version
key) leaves the pending group reset. -/
theorem normalize_reset_of_version (s0 : PersistedState) (rv fid : String)
    (hv : s0.pendingUpdateVersion = none ∨
          s0.pendingUpdateVersion = some (some rv)) :
    pendingGroupReset (normalizeLoadedState (some s0) rv fid) := by
  by_cases hid : s0.idKey = none <;>
    rcases hv with hv | hv <;>
      simp [normalizeLoadedState, hid, hv, setStateToNone_reset]

/-- Helper: start-up normalization either keeps the recorded pending file or
resets the pending group. -/
theorem normalize_file_or_reset (s0 : PersistedState) (rv fid : String) :
    (normalizeLoadedState (some s0) rv fid).pendingUpdateFile =
      s0.pendingUpdateFile ∨
    pendingGroupReset (normalizeLoadedState (some s0) rv fid) := by
  by_cases hid : s0.idKey = none <;>
    by_cases hv : s0.pendingUpdateVersion = none ∨
        s0.pendingUpdateVersion = some (some rv) <;>
      simp [normalizeLoadedState, hid, hv, setStateToNone_reset]

/-- Helper: the start-up branches preserve a reset pending group. -/
theorem init_preserves_reset (loaded : Option PersistedState)
    (rv fid : String) (lf ac sn : Bool) (fe : String → Bool)
    (h : pendingGroupReset (normalizeLoadedState loaded rv fid)) :
    pendingGroupReset
      (initializeUpdateState loaded rv fid lf ac sn fe).state := by
  have hg := getPendingUpdate_of_reset fe _ h
  have hg2 := getPendingUpdate_of_reset fe _
    (setStateToNone_reset (normalizeLoadedState loaded rv fid))
  cases lf <;> cases ac <;> cases sn <;>
    simp [initializeUpdateState, hg, hg2, setStateToNone_reset, h]

/-- Counterexample to C4 as stated: a start-up with automatic checking on and
start-up notification off, loading a state whose pending file does not exist
(`fileExists` is constantly false) and whose pending version differs from the
running version, leaves the stale pending fields in place instead of
resetting them. -/
theorem C4_startup_reset_counterexample :
    exStalePending.pendingUpdateFile = some (some "X:/gone.exe")
    ∧ (fun _ : String => false) "X:/gone.exe" = false
    ∧ exStalePending.pendingUpdateVersion = some (some "2099.1")
    ∧ "2099.1" ≠ "2025.1"
    ∧ (initializeUpdateState (some exStalePending) "2025.1" "newid" false true
        false (fun _ => false)).state.pendingUpdateFile =
      some (some "X:/gone.exe")
    ∧ (initializeUpdateState (some exStalePending) "2025.1" "newid" false true
        false (fun _ => false)).state.pendingUpdateFile ≠ some none := by
  exact ⟨rfl, rfl, rfl, by decide, rfl, by decide⟩

/-- C4 (amended): on start-up the pending group is reset whenever the
recorded `pendingUpdateVersion` key is absent or equals the running version;
the file-existence condition is enforced on every read of the pending update
(`getPendingUpdate` resets all four fields when the recorded file does not
exist, and whenever it returns nothing the group is reset) — and hence at
start-up through those reads exactly when start-up notification is enabled,
not unconditionally. -/
theorem C4_startup_reset_amended :
    (∀ (s0 : PersistedState) (rv fid : String) (lf ac sn : Bool)
       (fe : String → Bool),
      s0.pendingUpdateVersion = none ∨
        s0.pendingUpdateVersion = some (some rv) →
      pendingGroupReset
        (initializeUpdateState (some s0) rv fid lf ac sn fe).state)
    ∧ (∀ (fe : String → Bool) (s : PersistedState) (f : String),
        s.pendingUpdateFile = some (some f) → fe f = false →
        getPendingUpdate fe s = (_setStateToNone s, none))
    ∧ (∀ (fe : String → Bool) (s : PersistedState),
        (getPendingUpdate fe s).2 = none →
        pendingGroupReset (getPendingUpdate fe s).1)
    ∧ (∀ (s0 : PersistedState) (rv fid : String) (ac : Bool)
        (fe : String → Bool) (f : String),
        s0.pendingUpdateFile = some (some f) → fe f = false →
        pendingGroupReset
          (initializeUpdateState (some s0) rv fid false ac true fe).state) := by
  refine ⟨?_, getPendingUpdate_no_file, getPendingUpdate_none_reset, ?_⟩
  · intro s0 rv fid lf ac sn fe hv
    exact init_preserves_reset _ _ _ _ _ _ _
      (normalize_reset_of_version s0 rv fid hv)
  · intro s0 rv fid ac fe f hf hfe
    rcases normalize_file_or_reset s0 rv fid with hfile | hres
    · have hgpu := getPendingUpdate_no_file fe
        (normalizeLoadedState (some s0) rv fid) f (hfile.trans hf) hfe
      cases ac <;>
        simp [initializeUpdateState, hgpu, setStateToNone_reset]
    · exact init_preserves_reset _ _ _ _ _ _ _ hres

/-- Witness for the amended C4 at concrete inputs. -/
theorem C4_startup_reset_witness :
    (exStalePending.pendingUpdateVersion = none ∨
      exStalePending.pendingUpdateVersion = some (some "2099.1"))
    ∧ pendingGroupReset
        (initializeUpdateState (some exStalePending) "2099.1" "newid" false
          true false (fun _ => false)).state
    ∧ exStalePending.pendingUpdateFile = some (some "X:/gone.exe")
    ∧ getPendingUpdate (fun _ => false) exStalePending =
        (_setStateToNone exStalePending, none)
    ∧ pendingGroupReset
        ((getPendingUpdate (fun _ => false) exStalePending).1)
    ∧ pendingGroupReset
        (initializeUpdateState (some exStalePending) "2025.1" "newid" false
          true true (fun _ => false)).state := by
  refine ⟨Or.inr rfl, ?_, rfl, ?_, ?_, ?_⟩
  · exact C4_startup_reset_amended.1 exStalePending "2099.1" "newid" false
      true false (fun _ => false) (Or.inr rfl)
  · exact C4_startup_reset_amended.2.1 (fun _ => false) exStalePending
      "X:/gone.exe" rfl rfl
  · exact C4_startup_reset_amended.2.2.1 (fun _ => false) exStalePending
      (by decide)
  · exact C4_startup_reset_amended.2.2.2 exStalePending "2025.1" "newid" true
      (fun _ => false) "X:/gone.exe" rfl rfl

/-- Helper: an uncancelled streaming loop reads exactly the declared size (or
everything the stream has, if shorter) and then runs the post-loop checks on
the bytes written. -/
theorem downloadLoop_no_cancel (hex : List Nat → String)
    (fileHash : Option String) (size : Nat) :
    ∀ (remaining : List Nat) (read : Nat) (written : List Nat),
      downloadLoop hex fileHash false size remaining read written =
        downloadFinish hex fileHash size
          (read + min (size - read) remaining.length)
          (written ++ remaining.take (size - read)) := by
  suffices H : ∀ (n : Nat) (remaining : List Nat) (read : Nat)
      (written : List Nat), remaining.length ≤ n →
      downloadLoop hex fileHash false size remaining read written =
        downloadFinish hex fileHash size
          (read + min (size - read) remaining.length)
          (written ++ remaining.take (size - read)) by
    exact fun remaining read written =>
      H remaining.length remaining read written le_rfl
  intro n
  induction n with
  | zero =>
    intro remaining read written hle
    have hrem : remaining = [] :=
      List.eq_nil_of_length_eq_zero (Nat.le_zero.mp hle)
    subst hrem
    rw [downloadLoop]
    simp
  | succ n ih =>
    intro remaining read written hle
    rw [downloadLoop]
    by_cases hb : remaining.take (min DOWNLOAD_BLOCK_SIZE (size - read)) = []
    · rw [if_neg (by simp), dif_pos hb]
      rcases List.take_eq_nil_iff.mp hb with hc | hrem
      · have hsz : size - read = 0 := by
          have : DOWNLOAD_BLOCK_SIZE ≠ 0 := by decide
          omega
        simp [hsz]
      · subst hrem
        simp
    · rw [if_neg (by simp), dif_neg hb, if_neg (by simp)]
      have hbne : remaining ≠ [] := by
        intro h; exact hb (by simp [h])
      have hlen2 :
          (remaining.drop (min DOWNLOAD_BLOCK_SIZE (size - read))).length ≤ n := by
        simp only [List.length_drop]
        have hc0 : min DOWNLOAD_BLOCK_SIZE (size - read) ≠ 0 := by
          intro h; exact hb (by simp [h])
        have : remaining.length ≠ 0 :=
          fun h => hbne (List.eq_nil_of_length_eq_zero h)
        omega
      rw [ih _ _ _ hlen2]
      have hchunk_le : min DOWNLOAD_BLOCK_SIZE (size - read) ≤ size - read :=
        Nat.min_le_right _ _
      congr 1
      · simp only [List.length_take, List.length_drop]
        omega
      · rw [List.append_assoc]
        congr 1
        rw [← List.take_add]
        rw [List.take_eq_take]
        simp only [List.length_take, List.length_drop]
        omega

/-- Helper: an uncancelled single-mirror download at a 200 status equals the
post-loop verification of the first `size` delivered bytes. -/
theorem download_eq_finish (hex : List Nat → String) (fileHash : Option String)
    (resp : RemoteResponse) (h200 : resp.code = 200) :
    _download hex fileHash false resp =
      downloadFinish hex fileHash resp.size (min resp.size resp.body.length)
        (resp.body.take resp.size) := by
  rw [_download, if_neg (by simp [h200]), downloadLoop_no_cancel]
  simp

/-- Helper: delivering fewer bytes than the declared size fails with the
short-content integrity error. -/
theorem download_contentTooShort (hex : List Nat → String)
    (fileHash : Option String) (resp : RemoteResponse) (h200 : resp.code = 200)
    (hshort : resp.body.length < resp.size) :
    _download hex fileHash false resp =
      Except.error DownloadError.contentTooShort := by
  rw [download_eq_finish hex fileHash resp h200]
  have hmin : min resp.size resp.body.length = resp.body.length := by omega
  simp [downloadFinish, hmin, hshort]

/-- Helper: a full-length delivery whose digest differs from the expected
hash fails with the hash-mismatch integrity error. -/
theorem download_hashMismatch (hex : List Nat → String) (h : String)
    (resp : RemoteResponse) (h200 : resp.code = 200)
    (hlen : resp.body.length = resp.size) (hne : h ≠ "")
    (hmis : hex resp.body ≠ h) :
    _download hex (some h) false resp =
      Except.error DownloadError.hashMismatch := by
  rw [download_eq_finish hex (some h) resp h200]
  have hmin : min resp.size resp.body.length = resp.size := by omega
  have htake : resp.body.take resp.size = resp.body :=
    List.take_of_length_le (by omega)
  simp [downloadFinish, hmin, htake, hne, hmis]

/-- Helper: a download whose cancellation flag is set returns immediately
with nothing written. -/
theorem downloadLoop_cancel (hex : List Nat → String)
    (fileHash : Option String) (size : Nat) (remaining : List Nat)
    (read : Nat) (written : List Nat) :
    downloadLoop hex fileHash true size remaining read written =
      Except.ok (DownloadOutcome.canceled written) := by
  rw [downloadLoop]
  simp

/-- Helper: when every mirror fails, the whole mirror list is attempted, the
overall error is reported, and the partial file is not removed. -/
theorem bg_all_fail (hex : List Nat → String) (fileHash : Option String)
    (responses : String → RemoteResponse) :
    ∀ urls : List String,
      (∀ u ∈ urls, ∃ e,
        _download hex fileHash false (responses u) = Except.error e) →
      _bg hex fileHash false responses urls =
        ⟨urls, BgOutcome.errorReported, false⟩ := by
  intro urls
  induction urls with
  | nil => intro _; rfl
  | cons url rest ih =>
    intro h
    obtain ⟨e, he⟩ := h url (List.mem_cons_self url rest)
    have hrest := ih (fun u hu => h u (List.mem_cons_of_mem _ hu))
    simp [_bg, he, hrest]

/-- Helper: the attempted mirror list is always a prefix of the supplied
mirror list. -/
theorem bg_attempted_in_order (hex : List Nat → String)
    (fileHash : Option String) (sc : Bool)
    (responses : String → RemoteResponse) :
    ∀ urls : List String, ∃ rest,
      urls = (_bg hex fileHash sc responses urls).attempted ++ rest := by
  intro urls
  induction urls with
  | nil => exact ⟨[], rfl⟩
  | cons url rest ih =>
    cases hd : _download hex fileHash sc (responses url) with
    | error e =>
      obtain ⟨r2, hr2⟩ := ih
      refine ⟨r2, ?_⟩
      simp only [_bg, hd]
      exact congrArg (List.cons url) hr2
    | ok out =>
      refine ⟨rest, ?_⟩
      simp only [_bg]
      rw [hd]
      cases sc <;> simp

/-- Helper: the overall error is reported only when every supplied mirror
failed. -/
theorem bg_error_all_fail (hex : List Nat → String) (fileHash : Option String)
    (responses : String → RemoteResponse) :
    ∀ urls : List String,
      (_bg hex fileHash false responses urls).outcome = BgOutcome.errorReported →
      ∀ u ∈ urls, ∃ e,
        _download hex fileHash false (responses u) = Except.error e := by
  intro urls
  induction urls with
  | nil => intro _ u hu; cases hu
  | cons url rest ih =>
    intro h u hu
    cases hd : _download hex fileHash false (responses url) with
    | error e =>
      rcases List.mem_cons.mp hu with rfl | hu'
      · exact ⟨e, hd⟩
      · refine ih ?_ u hu'
        simpa [_bg, hd] using h
    | ok out =>
      exfalso
      simp [_bg, hd] at h

/-- Helper: the first mirror whose download returns is the last one
attempted, and (uncancelled) its bytes are the result. -/
theorem bg_first_success (hex : List Nat → String) (fileHash : Option String)
    (responses : String → RemoteResponse) :
    ∀ (pre : List String) (u : String) (post : List String)
      (out : DownloadOutcome),
      (∀ v ∈ pre, ∃ e,
        _download hex fileHash false (responses v) = Except.error e) →
      _download hex fileHash false (responses u) = Except.ok out →
      _bg hex fileHash false responses (pre ++ u :: post) =
        ⟨pre ++ [u], BgOutcome.success out.written, false⟩ := by
  intro pre
  induction pre with
  | nil =>
    intro u post out _ hu
    simp [_bg, hu]
  | cons p pre ih =>
    intro u post out hpre hu
    obtain ⟨e, he⟩ := hpre p (List.mem_cons_self p pre)
    have hrec := ih u post out (fun v hv => hpre v (List.mem_cons_of_mem _ hv)) hu
    simp [_bg, he, hrec]

/-- Helper: an uncancelled run never removes the partial file. -/
theorem bg_no_cancel_no_removal (hex : List Nat → String)
    (fileHash : Option String) (responses : String → RemoteResponse) :
    ∀ urls : List String,
      (_bg hex fileHash false responses urls).removedPartialFile = false := by
  intro urls
  induction urls with
  | nil => rfl
  | cons url rest ih =>
    cases hd : _download hex fileHash false (responses url) with
    | error e => simpa [_bg, hd] using ih
    | ok out => simp [_bg, hd]

/-- Helper: the partial file is removed only during a cancelled run. -/
theorem bg_removed_only_cancel (hex : List Nat → String)
    (fileHash : Option String) (sc : Bool)
    (responses : String → RemoteResponse) :
    ∀ urls : List String,
      (_bg hex fileHash sc responses urls).removedPartialFile = true →
      sc = true := by
  cases sc with
  | true => exact fun urls _ => rfl
  | false =>
    intro urls h
    rw [bg_no_cancel_no_removal] at h
    cases h

/-- Counterexample to C2 as stated: a single hash-verified mirror delivering
tampered content fails with the hash-mismatch integrity error, the overall
error is reported — and the partial file at the destination path is NOT
removed (`os.remove` runs only on the cancellation path of
`UpdateDownloader._bg`). -/
theorem C2_download_integrity_counterexample :
    _download exHex (some "aa") false (exResponses "m1") =
      Except.error DownloadError.hashMismatch
    ∧ _bg exHex (some "aa") false exResponses ["m1"] =
        ⟨["m1"], BgOutcome.errorReported, false⟩
    ∧ (_bg exHex (some "aa") false exResponses ["m1"]).removedPartialFile =
        false := by
  have h1 : _download exHex (some "aa") false (exResponses "m1") =
      Except.error DownloadError.hashMismatch :=
    download_hashMismatch exHex "aa" (exResponses "m1") rfl rfl (by decide)
      (by decide)
  have h2 := bg_all_fail exHex (some "aa") exResponses ["m1"]
    (by
      intro u hu
      rcases List.mem_singleton.mp hu with rfl
      exact ⟨_, h1⟩)
  exact ⟨h1, h2, by rw [h2]⟩

/-- C2 (amended): a hash-verified download whose delivered content has a
digest differing from the expected hash fails with the hash-mismatch
integrity error, and one delivering fewer bytes than the declared content
length fails with the short-content integrity error; when every mirror fails
the downloader reports the overall error without removing the partial file —
the partial file at the destination path is removed only when the download
was cancelled. -/
theorem C2_download_integrity_amended :
    (∀ (hex : List Nat → String) (h : String) (resp : RemoteResponse),
      resp.code = 200 → resp.body.length = resp.size → h ≠ "" →
      hex resp.body ≠ h →
      _download hex (some h) false resp =
        Except.error DownloadError.hashMismatch)
    ∧ (∀ (hex : List Nat → String) (fileHash : Option String)
        (resp : RemoteResponse), resp.code = 200 →
        resp.body.length < resp.size →
        _download hex fileHash false resp =
          Except.error DownloadError.contentTooShort)
    ∧ (∀ (hex : List Nat → String) (fileHash : Option String)
        (responses : String → RemoteResponse) (urls : List String),
        (∀ u ∈ urls, ∃ e,
          _download hex fileHash false (responses u) = Except.error e) →
        _bg hex fileHash false responses urls =
          ⟨urls, BgOutcome.errorReported, false⟩)
    ∧ (∀ (hex : List Nat → String) (fileHash : Option String) (sc : Bool)
        (responses : String → RemoteResponse) (urls : List String),
        (_bg hex fileHash sc responses urls).removedPartialFile = true →
        sc = true) :=
  ⟨download_hashMismatch, download_contentTooShort, bg_all_fail,
   bg_removed_only_cancel⟩

/-- Witness for the amended C2 at concrete inputs. -/
theorem C2_download_integrity_witness :
    ((exResponses "m1").code = 200
      ∧ (exResponses "m1").body.length = (exResponses "m1").size
      ∧ "aa" ≠ ""
      ∧ exHex (exResponses "m1").body ≠ "aa"
      ∧ _download exHex (some "aa") false (exResponses "m1") =
          Except.error DownloadError.hashMismatch)
    ∧ (exShortResp.code = 200 ∧ exShortResp.body.length < exShortResp.size
      ∧ _download exHex none false exShortResp =
          Except.error DownloadError.contentTooShort)
    ∧ _bg exHex (some "aa") false exResponses ["m1"] =
        ⟨["m1"], BgOutcome.errorReported, false⟩
    ∧ ((_bg exHex none true exMirrors ["B"]).removedPartialFile = true
      ∧ (true : Bool) = true) := by
  refine ⟨⟨rfl, rfl, by decide, by decide, ?_⟩, ⟨rfl, by decide, ?_⟩, ?_, ?_⟩
  · exact C2_download_integrity_amended.1 exHex "aa" (exResponses "m1") rfl rfl
      (by decide) (by decide)
  · exact C2_download_integrity_amended.2.1 exHex none exShortResp rfl
      (by decide)
  · exact C2_download_integrity_amended.2.2.1 exHex (some "aa") exResponses
      ["m1"]
      (by
        intro u hu
        rcases List.mem_singleton.mp hu with rfl
        exact ⟨_, download_hashMismatch exHex "aa" (exResponses "m1") rfl rfl
          (by decide) (by decide)⟩)
  · have hdl : _download exHex none true (exMirrors "B") =
        Except.ok (DownloadOutcome.canceled []) := by
      rw [_download, if_neg (by decide)]
      exact downloadLoop_cancel exHex none _ _ 0 []
    have hbg : (_bg exHex none true exMirrors ["B"]).removedPartialFile =
        true := by
      simp only [_bg]
      rw [hdl]
      simp
    exact ⟨hbg,
      C2_download_integrity_amended.2.2.2 exHex none true exMirrors ["B"] hbg⟩

/-- C3: with no cancellation, the downloader attempts the mirrors strictly in
the supplied order (what it attempted is a prefix of the supplied list), a
mirror failure only moves on to the next mirror, the overall error is
reported exactly when every mirror fails, and the first mirror whose download
succeeds ends the run with that mirror's bytes, no later URL being
attempted. -/
theorem C3_mirror_order :
    ∀ (hex : List Nat → String) (fileHash : Option String)
      (responses : String → RemoteResponse) (urls : List String),
      (∃ rest, urls = (_bg hex fileHash false responses urls).attempted ++ rest)
      ∧ ((∀ u ∈ urls, ∃ e,
            _download hex fileHash false (responses u) = Except.error e) →
          _bg hex fileHash false responses urls =
            ⟨urls, BgOutcome.errorReported, false⟩)
      ∧ ((_bg hex fileHash false responses urls).outcome =
            BgOutcome.errorReported →
          ∀ u ∈ urls, ∃ e,
            _download hex fileHash false (responses u) = Except.error e)
      ∧ (∀ (pre post : List String) (u : String) (out : DownloadOutcome),
          urls = pre ++ u :: post →
          (∀ v ∈ pre, ∃ e,
            _download hex fileHash false (responses v) = Except.error e) →
          _download hex fileHash false (responses u) = Except.ok out →
          _bg hex fileHash false responses urls =
            ⟨pre ++ [u], BgOutcome.success out.written, false⟩) := by
  intro hex fileHash responses urls
  refine ⟨bg_attempted_in_order hex fileHash false responses urls,
    bg_all_fail hex fileHash responses urls,
    bg_error_all_fail hex fileHash responses urls, ?_⟩
  intro pre post u out hurls hpre hu
  subst hurls
  exact bg_first_success hex fileHash responses pre u post out hpre hu

/-- Witness for C3 at concrete inputs: mirror "A" fails with an HTTP 500,
mirror "B" succeeds; the run attempts exactly ["A", "B"] in order and
returns "B"'s bytes. -/
theorem C3_mirror_order_witness :
    _download exHex none false (exMirrors "A") =
      Except.error (DownloadError.badStatus 500)
    ∧ _download exHex none false (exMirrors "B") =
        Except.ok (DownloadOutcome.completed [0, 1, 2])
    ∧ _bg exHex none false exMirrors ["A", "B"] =
        ⟨["A", "B"], BgOutcome.success [0, 1, 2], false⟩
    ∧ (∃ rest, (["A", "B"] : List String) =
        (_bg exHex none false exMirrors ["A", "B"]).attempted ++ rest) := by
  have hA : _download exHex none false (exMirrors "A") =
      Except.error (DownloadError.badStatus 500) := rfl
  have hB : _download exHex none false (exMirrors "B") =
      Except.ok (DownloadOutcome.completed [0, 1, 2]) := by
    rw [download_eq_finish exHex none (exMirrors "B") rfl]
    rfl
  have h3 := (C3_mirror_order exHex none exMirrors ["A", "B"]).2.2.2 ["A"] []
    "B" (DownloadOutcome.completed [0, 1, 2]) rfl
    (by
      intro v hv
      rcases List.mem_singleton.mp hv with rfl
      exact ⟨_, hA⟩)
    hB
  refine ⟨hA, hB, ?_, (C3_mirror_order exHex none exMirrors ["A", "B"]).1⟩
  simpa using h3
